import Mathlib

/-
  Verification of the weathered-chaos double-pendulum simulator.

  The Python code computes with IEEE floats; we embed the arithmetic into an
  arbitrary linear ordered field `K` (instantiated with ℚ for executable
  witnesses and with ℝ where the spec speaks of real arithmetic).  The
  transcendental functions `math.sin`, `math.cos` and `math.sqrt` are taken
  as function parameters of the embedded operations: every property proved
  below holds for all instantiations, in particular for the real sine,
  cosine and square root.
-/

set_option maxHeartbeats 1000000

namespace WeatheredChaos

variable {K : Type} [LinearOrderedField K]

/-- Embedding of `DoublePendulum.calculate_temperature_factor`
(src/PendulumSystem.py, lines 92-115).  The global `Config.moon_mode` is
passed explicitly.  The float literals 0.25 and 2.0 are the rationals
1/4 and 2. -/
def calculate_temperature_factor (moon_mode : Bool) (temperature_celsius : K) : K :=
  if moon_mode then 1
  else
    let min_temperature_factor : K := 1/4
    let max_temperature_factor : K := 2
    let min_temperature : K := 0
    let max_temperature : K := 35
    if temperature_celsius ≤ min_temperature then min_temperature_factor
    else if max_temperature ≤ temperature_celsius then max_temperature_factor
    else
      min_temperature_factor
        + (temperature_celsius / max_temperature)
          * (max_temperature_factor - min_temperature_factor)

/-- C1: `calculate_temperature_factor` returns the floor 0.25 for t ≤ 0 °C,
returns 2.0 for t ≥ 35 °C, is linear (affine in t) strictly in between —
so at 17.5 °C it returns floor + 0.5·(2.0 − floor) — and returns 1.0
regardless of t when moon mode is active. -/
theorem C1_temperature_factor (moon_mode : Bool) (t : K) :
    (moon_mode = false → t ≤ 0 → calculate_temperature_factor moon_mode t = 1/4)
    ∧ (moon_mode = false → 35 ≤ t → calculate_temperature_factor moon_mode t = 2)
    ∧ (moon_mode = false → 0 < t → t < 35 →
        calculate_temperature_factor moon_mode t = 1/4 + (t / 35) * (2 - 1/4))
    ∧ (calculate_temperature_factor false ((35 : K)/2)
        = 1/4 + (1/2) * (2 - 1/4))
    ∧ (moon_mode = true → calculate_temperature_factor moon_mode t = 1) := by
  refine ⟨?_, ?_, ?_, ?_, ?_⟩
  · intro hm ht
    simp [calculate_temperature_factor, hm, ht]
  · intro hm ht
    have h0 : ¬ (t ≤ (0 : K)) := by linarith
    simp [calculate_temperature_factor, hm, h0, ht]
  · intro hm h0 h35
    have h0' : ¬ (t ≤ (0 : K)) := not_le.mpr h0
    have h35' : ¬ ((35 : K) ≤ t) := not_le.mpr h35
    simp [calculate_temperature_factor, hm, h0', h35']
  · have h0' : ¬ ((35 : K)/2 ≤ (0 : K)) := by
      rw [not_le]
      positivity
    have h35' : ¬ ((35 : K) ≤ (35 : K)/2) := by
      rw [not_le]
      linarith
    simp only [calculate_temperature_factor, Bool.false_eq_true, if_false,
      if_neg h0', if_neg h35']
    ring
  · intro hm
    simp [calculate_temperature_factor, hm]

/-- C1 witness: the theorem applied at concrete temperatures over ℚ. -/
theorem C1_temperature_factor_witness :
    calculate_temperature_factor false (-(5 : ℚ)) = 1/4
    ∧ calculate_temperature_factor false (40 : ℚ) = 2
    ∧ calculate_temperature_factor false (7 : ℚ) = 1/4 + ((7 : ℚ) / 35) * (2 - 1/4)
    ∧ calculate_temperature_factor true (100 : ℚ) = 1 :=
  ⟨(C1_temperature_factor false (-(5 : ℚ))).1 rfl (by norm_num),
   (C1_temperature_factor false (40 : ℚ)).2.1 rfl (by norm_num),
   (C1_temperature_factor false (7 : ℚ)).2.2.1 rfl (by norm_num) (by norm_num),
   (C1_temperature_factor true (100 : ℚ)).2.2.2.2 rfl⟩

/-- Embedding of class `Pendulum` (src/PendulumSystem.py, lines 20-45):
the per-body state used by the simulation (the visual node attached to a
pendulum is modelled separately, see `Node`). -/
structure Pendulum (K : Type) where
  length : K
  mass : K
  angle : K
  angular_velocity : K
deriving DecidableEq

/-- Embedding of class `DoublePendulum` (src/PendulumSystem.py, lines 48-90).
The source keeps `self.pendulums` as a list of exactly two `Pendulum`
objects; we embed that fixed-size list as the two fields `p1` and `p2`. -/
structure DoublePendulum (K : Type) where
  p1 : Pendulum K
  p2 : Pendulum K
  g : K
  temperature_factor : K
deriving DecidableEq

/-- Clamp of an angular velocity to `[-MAX_ANGULAR_VELOCITY, MAX_ANGULAR_VELOCITY]`
with `MAX_ANGULAR_VELOCITY = 10.0` (src/PendulumSystem.py, lines 6 and 168-176):
`max(-10, min(w, 10))`. -/
def clamp_angular_velocity (w : K) : K := max (-10) (min w 10)

/-- The denominator `denom1 = L1 * (common_mass - m2 * cos2delta)` from
`DoublePendulum.step` (src/PendulumSystem.py, line 139). -/
def DoublePendulum.denom1 (cs : K → K) (dp : DoublePendulum K) : K :=
  dp.p1.length
    * (2 * dp.p1.mass + dp.p2.mass
        - dp.p2.mass * cs (2 * (dp.p1.angle - dp.p2.angle)))

/-- The denominator `denom2 = L2 * (common_mass - m2 * cos2delta)` from
`DoublePendulum.step` (src/PendulumSystem.py, line 140). -/
def DoublePendulum.denom2 (cs : K → K) (dp : DoublePendulum K) : K :=
  dp.p2.length
    * (2 * dp.p1.mass + dp.p2.mass
        - dp.p2.mass * cs (2 * (dp.p1.angle - dp.p2.angle)))

/-- The first angular acceleration `d_w1` of `DoublePendulum.step`
(src/PendulumSystem.py, lines 143-147) already multiplied by the
temperature factor (line 161). -/
def DoublePendulum.accel1 (sn cs : K → K) (dp : DoublePendulum K) : K :=
  (-(dp.g * (2 * dp.p1.mass + dp.p2.mass) * sn dp.p1.angle)
      - dp.p2.mass * dp.g * sn (dp.p1.angle - 2 * dp.p2.angle)
      - 2 * sn (dp.p1.angle - dp.p2.angle) * dp.p2.mass
          * (dp.p2.angular_velocity ^ 2 * dp.p2.length
              + dp.p1.angular_velocity ^ 2 * dp.p1.length
                  * cs (dp.p1.angle - dp.p2.angle)))
    / dp.denom1 cs * dp.temperature_factor

/-- The second angular acceleration `d_w2` of `DoublePendulum.step`
(src/PendulumSystem.py, lines 149-157) already multiplied by the
temperature factor (line 162). -/
def DoublePendulum.accel2 (sn cs : K → K) (dp : DoublePendulum K) : K :=
  (2 * sn (dp.p1.angle - dp.p2.angle)
      * (dp.p1.angular_velocity ^ 2 * dp.p1.length * (dp.p1.mass + dp.p2.mass)
          + dp.g * (dp.p1.mass + dp.p2.mass) * cs dp.p1.angle
          + dp.p2.angular_velocity ^ 2 * dp.p2.length * dp.p2.mass
              * cs (dp.p1.angle - dp.p2.angle)))
    / dp.denom2 cs * dp.temperature_factor

/-- The first body's angular velocity after Euler integration and clamping
(src/PendulumSystem.py, lines 165 and 169-172). -/
def DoublePendulum.new_w1 (sn cs : K → K) (dp : DoublePendulum K) (dt : K) : K :=
  clamp_angular_velocity (dp.p1.angular_velocity + dp.accel1 sn cs * dt)

/-- The second body's angular velocity after Euler integration and clamping
(src/PendulumSystem.py, lines 166 and 173-176). -/
def DoublePendulum.new_w2 (sn cs : K → K) (dp : DoublePendulum K) (dt : K) : K :=
  clamp_angular_velocity (dp.p2.angular_velocity + dp.accel2 sn cs * dt)

/-- The first body's angle after Euler integration, before spin wrapping
(src/PendulumSystem.py, line 178). -/
def DoublePendulum.new_a1 (sn cs : K → K) (dp : DoublePendulum K) (dt : K) : K :=
  dp.p1.angle + dp.new_w1 sn cs dt * dt

/-- The second body's angle after Euler integration
(src/PendulumSystem.py, line 179). -/
def DoublePendulum.new_a2 (sn cs : K → K) (dp : DoublePendulum K) (dt : K) : K :=
  dp.p2.angle + dp.new_w2 sn cs dt * dt

/-- Python's float `%` with the sign convention of the divisor:
`a % b = a - b * floor(a / b)`. -/
def pymod [FloorRing K] (a b : K) : K := a - b * ⌊a / b⌋

/-- Embedding of `DoublePendulum.step` (src/PendulumSystem.py, lines
117-187).  `sn`/`cs` stand for `math.sin`/`math.cos`, `pi` for `math.pi`.
The final branch is the full-spin detection: `DAMPING_FACTOR = 0.90` is
the rational 9/10, and `p1.angle %= 2 * math.pi` is `pymod` by `2 * pi`. -/
def DoublePendulum.step [FloorRing K] (sn cs : K → K) (pi : K)
    (dp : DoublePendulum K) (dt : K) : DoublePendulum K :=
  if 2 * pi ≤ |dp.new_a1 sn cs dt| then
    ⟨⟨dp.p1.length, dp.p1.mass, pymod (dp.new_a1 sn cs dt) (2 * pi),
        dp.new_w1 sn cs dt * (9/10)⟩,
     ⟨dp.p2.length, dp.p2.mass, dp.new_a2 sn cs dt, dp.new_w2 sn cs dt⟩,
     dp.g, dp.temperature_factor⟩
  else
    ⟨⟨dp.p1.length, dp.p1.mass, dp.new_a1 sn cs dt, dp.new_w1 sn cs dt⟩,
     ⟨dp.p2.length, dp.p2.mass, dp.new_a2 sn cs dt, dp.new_w2 sn cs dt⟩,
     dp.g, dp.temperature_factor⟩

lemma clamp_angular_velocity_mem (w : K) :
    -10 ≤ clamp_angular_velocity w ∧ clamp_angular_velocity w ≤ 10 := by
  constructor
  · exact le_max_left _ _
  · exact max_le (by norm_num) (min_le_right _ _)

lemma pymod_mem [FloorRing K] (a b : K) (hb : 0 < b) :
    0 ≤ pymod a b ∧ pymod a b < b := by
  have hfl : ((⌊a / b⌋ : ℤ) : K) ≤ a / b := Int.floor_le _
  have hfl2 : a / b - 1 < ((⌊a / b⌋ : ℤ) : K) := Int.sub_one_lt_floor _
  have hba : b * (a / b) = a := by field_simp
  constructor
  · have h1 : b * ((⌊a / b⌋ : ℤ) : K) ≤ b * (a / b) :=
      mul_le_mul_of_nonneg_left hfl (le_of_lt hb)
    unfold pymod
    linarith
  · have h2 : b * (a / b - 1) < b * ((⌊a / b⌋ : ℤ) : K) :=
      mul_lt_mul_of_pos_left hfl2 hb
    have h3 : b * (a / b - 1) = a - b := by
      rw [mul_sub, hba, mul_one]
    unfold pymod
    linarith

/-- C4: for every valid non-singular state (positive masses and lengths,
nonzero denominators) and every dt > 0, after one `step` both bodies'
angular velocities lie within [-10, 10]. -/
theorem C4_step_clamps_velocities [FloorRing K] (sn cs : K → K) (pi dt : K)
    (dp : DoublePendulum K)
    (hm1 : 0 < dp.p1.mass) (hm2 : 0 < dp.p2.mass)
    (hL1 : 0 < dp.p1.length) (hL2 : 0 < dp.p2.length)
    (hd1 : dp.denom1 cs ≠ 0) (hd2 : dp.denom2 cs ≠ 0)
    (hdt : 0 < dt) :
    (-10 ≤ (dp.step sn cs pi dt).p1.angular_velocity
      ∧ (dp.step sn cs pi dt).p1.angular_velocity ≤ 10)
    ∧ (-10 ≤ (dp.step sn cs pi dt).p2.angular_velocity
      ∧ (dp.step sn cs pi dt).p2.angular_velocity ≤ 10) := by
  obtain ⟨hw1l, hw1u⟩ :=
    clamp_angular_velocity_mem (dp.p1.angular_velocity + dp.accel1 sn cs * dt)
  obtain ⟨hw2l, hw2u⟩ :=
    clamp_angular_velocity_mem (dp.p2.angular_velocity + dp.accel2 sn cs * dt)
  have hw1l' : (-10 : K) ≤ dp.new_w1 sn cs dt := hw1l
  have hw1u' : dp.new_w1 sn cs dt ≤ 10 := hw1u
  have hw2l' : (-10 : K) ≤ dp.new_w2 sn cs dt := hw2l
  have hw2u' : dp.new_w2 sn cs dt ≤ 10 := hw2u
  unfold DoublePendulum.step
  split
  · refine ⟨⟨?_, ?_⟩, hw2l', hw2u'⟩
    · simp only
      linarith
    · simp only
      linarith
  · exact ⟨⟨hw1l', hw1u'⟩, hw2l', hw2u'⟩

/-- C4 witness: a concrete rational state with unit masses and lengths and
zero trig oracle, stepped with dt = 1. -/
theorem C4_step_clamps_velocities_witness :
    (0 : ℚ) < 1 ∧
    ((-10 ≤ ((⟨⟨1, 1, 0, 0⟩, ⟨1, 1, 0, 0⟩, 10, 1⟩ :
          DoublePendulum ℚ).step (fun _ => 0) (fun _ => 0) 3 1).p1.angular_velocity
      ∧ ((⟨⟨1, 1, 0, 0⟩, ⟨1, 1, 0, 0⟩, 10, 1⟩ :
          DoublePendulum ℚ).step (fun _ => 0) (fun _ => 0) 3 1).p1.angular_velocity ≤ 10)
    ∧ (-10 ≤ ((⟨⟨1, 1, 0, 0⟩, ⟨1, 1, 0, 0⟩, 10, 1⟩ :
          DoublePendulum ℚ).step (fun _ => 0) (fun _ => 0) 3 1).p2.angular_velocity
      ∧ ((⟨⟨1, 1, 0, 0⟩, ⟨1, 1, 0, 0⟩, 10, 1⟩ :
          DoublePendulum ℚ).step (fun _ => 0) (fun _ => 0) 3 1).p2.angular_velocity ≤ 10)) :=
  ⟨by norm_num,
   C4_step_clamps_velocities (fun _ => 0) (fun _ => 0) 3 1
     (⟨⟨1, 1, 0, 0⟩, ⟨1, 1, 0, 0⟩, 10, 1⟩ : DoublePendulum ℚ)
     (by norm_num) (by norm_num) (by norm_num) (by norm_num)
     (by norm_num [DoublePendulum.denom1])
     (by norm_num [DoublePendulum.denom2])
     (by norm_num)⟩

/-- C5: whenever the first body's post-Euler angle magnitude reaches 2π,
the post-step angle lies within (-2π, 2π] and the post-step angular
velocity is exactly 9/10 of the pre-wrap (post-clamp) value. -/
theorem C5_full_spin_damping [FloorRing K] (sn cs : K → K) (pi dt : K)
    (dp : DoublePendulum K)
    (hpi : 0 < pi) (hdt : 0 < dt)
    (hspin : 2 * pi ≤ |dp.new_a1 sn cs dt|) :
    (-(2 * pi) < (dp.step sn cs pi dt).p1.angle
      ∧ (dp.step sn cs pi dt).p1.angle ≤ 2 * pi)
    ∧ (dp.step sn cs pi dt).p1.angular_velocity
        = (9/10) * dp.new_w1 sn cs dt := by
  have h2pi : (0 : K) < 2 * pi := by linarith
  obtain ⟨hm0, hmlt⟩ := pymod_mem (dp.new_a1 sn cs dt) (2 * pi) h2pi
  unfold DoublePendulum.step
  rw [if_pos hspin]
  refine ⟨⟨?_, ?_⟩, ?_⟩
  · simp only
    linarith
  · simp only
    linarith
  · simp only
    ring

/-- C5 witness: a rational state whose first angle is already 7 with zero
trig oracle, so the post-Euler angle 7 exceeds 2·3. -/
theorem C5_full_spin_damping_witness :
    (0 : ℚ) < 3 ∧ (0 : ℚ) < 1
    ∧ ((-(2 * 3) < ((⟨⟨1, 1, 7, 0⟩, ⟨1, 1, 0, 0⟩, 10, 1⟩ :
          DoublePendulum ℚ).step (fun _ => 0) (fun _ => 0) 3 1).p1.angle
        ∧ ((⟨⟨1, 1, 7, 0⟩, ⟨1, 1, 0, 0⟩, 10, 1⟩ :
          DoublePendulum ℚ).step (fun _ => 0) (fun _ => 0) 3 1).p1.angle ≤ 2 * 3)
      ∧ ((⟨⟨1, 1, 7, 0⟩, ⟨1, 1, 0, 0⟩, 10, 1⟩ :
          DoublePendulum ℚ).step (fun _ => 0) (fun _ => 0) 3 1).p1.angular_velocity
          = (9/10) * ((⟨⟨1, 1, 7, 0⟩, ⟨1, 1, 0, 0⟩, 10, 1⟩ :
              DoublePendulum ℚ).new_w1 (fun _ => 0) (fun _ => 0) 1)) :=
  ⟨by norm_num, by norm_num,
   C5_full_spin_damping (fun _ => 0) (fun _ => 0) 3 1
     (⟨⟨1, 1, 7, 0⟩, ⟨1, 1, 0, 0⟩, 10, 1⟩ : DoublePendulum ℚ)
     (by norm_num) (by norm_num)
     (by norm_num [DoublePendulum.new_a1, DoublePendulum.new_w1,
        DoublePendulum.accel1, DoublePendulum.denom1, clamp_angular_velocity])⟩

/-- C9: one `step` changes only the two bodies' angles and angular
velocities — both masses, both lengths, `g` and `temperature_factor` are
unchanged, for every state and every dt. -/
theorem C9_step_frame [FloorRing K] (sn cs : K → K) (pi dt : K)
    (dp : DoublePendulum K) :
    (dp.step sn cs pi dt).p1.mass = dp.p1.mass
    ∧ (dp.step sn cs pi dt).p1.length = dp.p1.length
    ∧ (dp.step sn cs pi dt).p2.mass = dp.p2.mass
    ∧ (dp.step sn cs pi dt).p2.length = dp.p2.length
    ∧ (dp.step sn cs pi dt).g = dp.g
    ∧ (dp.step sn cs pi dt).temperature_factor = dp.temperature_factor := by
  unfold DoublePendulum.step
  split <;> exact ⟨rfl, rfl, rfl, rfl, rfl, rfl⟩

/-- Embedding of class `Node` (src/PendulumSystem.py, lines 9-18): the
trigger state attached to each pendulum bob.  `last_x` starts as `None`. -/
structure Node (K : Type) where
  active : Bool
  triggered : Bool
  last_x : Option K
deriving DecidableEq

/-- Embedding of the per-node loop body of
`PendulumSystemVisualizer._update_node_states` (src/Visualizer.py, lines
184-203).  `x` is the node's current screen x-coordinate, `origin_x` the
pivot's x-coordinate and `node_threshold` the visualizer's threshold
(`self.node_threshold = 5` in the source). -/
def update_node_state (origin_x node_threshold : K) (node : Node K) (x : K) :
    Node K :=
  match node.last_x with
  | none => { node with last_x := some x }
  | some lx =>
    let previous_side : Bool := decide (lx < origin_x)
    let current_side : Bool := decide (x < origin_x)
    let node1 :=
      if previous_side ≠ current_side then
        if ¬ node.triggered then
          { node with active := true, triggered := true }
        else node
      else { node with active := false }
    let node2 :=
      if |x - origin_x| > node_threshold * 2 then
        { node1 with triggered := false }
      else node1
    { node2 with last_x := some x }

/-- C2 counterexample: a seeded node with `active = true` and
`triggered = true` observed on the other side of the origin (sign change,
latch already true, within the reset threshold): the code leaves
`active` equal to `true`, not `false`. -/
theorem C2_triggered_observation_counterexample :
    (Node.triggered (⟨true, true, some 399⟩ : Node ℚ) = true)
    ∧ (update_node_state (400 : ℚ) 5 ⟨true, true, some 399⟩ 401).active
        = true := by
  constructor
  · rfl
  · simp [update_node_state]
    norm_num

/-- C2 amended: after one observation in which the sample lies on the same
side of the origin as the previous sample, the node's `active` flag is
false; when the sign changed but the latch was already set, `active` is
left unchanged instead. -/
theorem C2_same_side_deactivates (origin_x node_threshold x lx : K)
    (node : Node K)
    (hlast : node.last_x = some lx)
    (hside : lx < origin_x ↔ x < origin_x) :
    (update_node_state origin_x node_threshold node x).active = false := by
  have hdec : decide (lx < origin_x) = decide (x < origin_x) :=
    decide_eq_decide.mpr hside
  unfold update_node_state
  rw [hlast]
  simp only [hdec, ne_eq, not_true_eq_false, if_false, ite_not]
  split <;> rfl

/-- C2 witness: a seeded node observed again on the same (left) side of
the origin ends the observation with `active = false`. -/
theorem C2_same_side_deactivates_witness :
    (Node.last_x (⟨true, true, some 399⟩ : Node ℚ) = some 399)
    ∧ (((399 : ℚ) < 400) ↔ ((398 : ℚ) < 400))
    ∧ (update_node_state (400 : ℚ) 5 ⟨true, true, some 399⟩ 398).active
        = false :=
  ⟨rfl, by norm_num,
   C2_same_side_deactivates (400 : ℚ) 5 398 399 ⟨true, true, some 399⟩
     rfl (by norm_num)⟩

/-- Oracle for the six `random.uniform` draws performed by the
`DoublePendulum` constructor (src/PendulumSystem.py, lines 71-82): the
sampled masses, lengths and angles of the two bodies. -/
structure PendulumDraw (K : Type) where
  mass1 : K
  length1 : K
  angle1 : K
  mass2 : K
  length2 : K
  angle2 : K
deriving DecidableEq

/-- Embedding of the `DoublePendulum` constructor (src/PendulumSystem.py,
lines 53-90).  The random draws are passed in `d`; the global
`Config.moon_mode` read by `calculate_temperature_factor` is passed as
`moon`.  A `None` temperature gives `temperature_factor = 1.0`. -/
def mkDoublePendulum (moon : Bool) (g : K) (temperature : Option K)
    (d : PendulumDraw K) : DoublePendulum K :=
  { p1 := ⟨d.length1, d.mass1, d.angle1, 0⟩
    p2 := ⟨d.length2, d.mass2, d.angle2, 0⟩
    g := g
    temperature_factor :=
      match temperature with
      | some t => calculate_temperature_factor moon t
      | none => 1 }

/-- Embedding of class `PendulumSystem` (src/PendulumSystem.py, lines
190-229): the ensemble state. -/
structure PendulumSystem (K : Type) where
  double_pendulums : List (DoublePendulum K)
  g : K
  temperature : Option K
  mass_range : K
  length_range : K
  angle_range : K × K
deriving DecidableEq

/-- Embedding of the `PendulumSystem` constructor (src/PendulumSystem.py,
lines 195-229): `n` double pendulums, each built from its own draw. -/
def mkPendulumSystem (moon : Bool) (n : ℕ) (g : K) (temperature : Option K)
    (mass_range length_range : K) (angle_range : K × K)
    (draws : ℕ → PendulumDraw K) : PendulumSystem K :=
  { double_pendulums :=
      (List.range n).map (fun i => mkDoublePendulum moon g temperature (draws i))
    g := g
    temperature := temperature
    mass_range := mass_range
    length_range := length_range
    angle_range := angle_range }

/-- Embedding of `PendulumSystem.update_gravity` (src/PendulumSystem.py,
lines 238-253).  `sq` stands for `math.sqrt`; every simulator's `g`
becomes the new value and each angular velocity is scaled by
`sqrt(g_new / g_old)`. -/
def update_gravity (sq : K → K) (s : PendulumSystem K) (g : K) :
    PendulumSystem K :=
  let gravity_ratio := sq (g / s.g)
  { s with
    g := g
    double_pendulums := s.double_pendulums.map (fun dp =>
      { dp with
        g := g
        p1 := { dp.p1 with
          angular_velocity := dp.p1.angular_velocity * gravity_ratio }
        p2 := { dp.p2 with
          angular_velocity := dp.p2.angular_velocity * gravity_ratio } }) }

/-- Python's slice `xs[:n]` for an `int` bound: nonnegative `n` keeps the
first `n` elements; negative `n` counts from the end, floored at 0. -/
def pySliceTo {β : Type} (xs : List β) (n : ℤ) : List β :=
  if 0 ≤ n then xs.take n.toNat
  else xs.take ((xs.length : ℤ) + n).toNat

/-- Embedding of `PendulumSystem.update_number_of_pendulums`
(src/PendulumSystem.py, lines 255-271): shrink by Python slicing, grow by
appending fresh `DoublePendulum`s built with the ensemble's stored
parameters; no validation of `n` is performed. -/
def update_number_of_pendulums (moon : Bool) (draws : ℕ → PendulumDraw K)
    (s : PendulumSystem K) (n : ℤ) : PendulumSystem K :=
  if n < (s.double_pendulums.length : ℤ) then
    { s with double_pendulums := pySliceTo s.double_pendulums n }
  else if (s.double_pendulums.length : ℤ) < n then
    { s with double_pendulums :=
        s.double_pendulums
          ++ (List.range (n - (s.double_pendulums.length : ℤ)).toNat).map
              (fun i => mkDoublePendulum moon s.g s.temperature (draws i)) }
  else s

/-- C3 counterexample: resizing a one-member ensemble to `n = 0 < 1` is
not rejected — the call goes through and empties the ensemble, so the
ensemble does not stay unchanged. -/
theorem C3_resize_zero_counterexample :
    ((0 : ℤ) < 1)
    ∧ (update_number_of_pendulums false (fun _ => ⟨1, 1, 1, 1, 1, 1⟩)
        (⟨[⟨⟨1, 1, 1, 0⟩, ⟨1, 1, 1, 0⟩, 981/100, 1⟩], 981/100, none, 0, 0,
          (0, 0)⟩ : PendulumSystem ℚ) 0).double_pendulums = []
    ∧ (⟨[⟨⟨1, 1, 1, 0⟩, ⟨1, 1, 1, 0⟩, 981/100, 1⟩], 981/100, none, 0, 0,
        (0, 0)⟩ : PendulumSystem ℚ).double_pendulums ≠ [] := by
  refine ⟨by norm_num, ?_, by simp⟩
  simp [update_number_of_pendulums, pySliceTo]

/-- C3 amended: a resize target `n < 1` is never rejected; the operation
is total and truncates the ensemble by Python slicing — in particular for
`0 ≤ n` below the current count the ensemble keeps exactly its first `n`
members (so `n = 0` empties it) — leaving the other ensemble fields
unchanged. -/
theorem C3_resize_truncates (moon : Bool) (draws : ℕ → PendulumDraw K)
    (s : PendulumSystem K) (n : ℤ)
    (hn : n < (s.double_pendulums.length : ℤ)) (hn0 : 0 ≤ n) :
    (update_number_of_pendulums moon draws s n).double_pendulums
      = s.double_pendulums.take n.toNat
    ∧ (update_number_of_pendulums moon draws s n).g = s.g := by
  unfold update_number_of_pendulums
  rw [if_pos hn]
  exact ⟨by simp [pySliceTo, hn0], rfl⟩

/-- C3 witness: truncating a one-member rational ensemble to zero members. -/
theorem C3_resize_truncates_witness :
    ((0 : ℤ) < ((⟨[⟨⟨1, 1, 1, 0⟩, ⟨1, 1, 1, 0⟩, 981/100, 1⟩], 981/100, none,
        0, 0, (0, 0)⟩ : PendulumSystem ℚ).double_pendulums.length : ℤ))
    ∧ (update_number_of_pendulums false (fun _ => ⟨1, 1, 1, 1, 1, 1⟩)
        (⟨[⟨⟨1, 1, 1, 0⟩, ⟨1, 1, 1, 0⟩, 981/100, 1⟩], 981/100, none, 0, 0,
          (0, 0)⟩ : PendulumSystem ℚ) 0).double_pendulums
        = (⟨[⟨⟨1, 1, 1, 0⟩, ⟨1, 1, 1, 0⟩, 981/100, 1⟩], 981/100, none, 0, 0,
          (0, 0)⟩ : PendulumSystem ℚ).double_pendulums.take ((0 : ℤ)).toNat :=
  ⟨by norm_num,
   (C3_resize_truncates false (fun _ => ⟨1, 1, 1, 1, 1, 1⟩)
     (⟨[⟨⟨1, 1, 1, 0⟩, ⟨1, 1, 1, 0⟩, 981/100, 1⟩], 981/100, none, 0, 0,
       (0, 0)⟩ : PendulumSystem ℚ) 0 (by norm_num) (by norm_num)).1⟩

/-- The angular velocities of the ensemble, pendulum by pendulum. -/
def velocities (s : PendulumSystem K) : List (K × K) :=
  s.double_pendulums.map
    (fun dp => (dp.p1.angular_velocity, dp.p2.angular_velocity))

/-- C6: with the real square root, `update_gravity g1` followed by
`update_gravity g0` (the previous gravity) restores every body's angular
velocity exactly, since `sqrt(g1/g0) * sqrt(g0/g1) = 1` in real
arithmetic. -/
theorem C6_gravity_round_trip (s : PendulumSystem ℝ) (g1 : ℝ)
    (hg0 : 0 < s.g) (hg1 : 0 < g1) :
    velocities
        (update_gravity Real.sqrt (update_gravity Real.sqrt s g1) s.g)
      = velocities s := by
  have hne0 : s.g ≠ 0 := ne_of_gt hg0
  have hne1 : g1 ≠ 0 := ne_of_gt hg1
  have hr : Real.sqrt (g1 / s.g) * Real.sqrt (s.g / g1) = 1 := by
    rw [← Real.sqrt_mul (le_of_lt (div_pos hg1 hg0))]
    have h1 : g1 / s.g * (s.g / g1) = 1 := by field_simp
    rw [h1, Real.sqrt_one]
  simp only [velocities, update_gravity, List.map_map]
  apply List.map_congr_left
  intro dp _
  simp only [Function.comp]
  rw [mul_assoc, mul_assoc, hr, mul_one, mul_one]

/-- C6 witness: a concrete real ensemble with gravity 4 taken to gravity 9
and back. -/
theorem C6_gravity_round_trip_witness :
    (0 : ℝ) < (⟨[⟨⟨1, 1, 1, 2⟩, ⟨1, 1, 1, 3⟩, 4, 1⟩], 4, none, 0, 0,
        (0, 0)⟩ : PendulumSystem ℝ).g
    ∧ (0 : ℝ) < 9
    ∧ velocities
        (update_gravity Real.sqrt
          (update_gravity Real.sqrt
            (⟨[⟨⟨1, 1, 1, 2⟩, ⟨1, 1, 1, 3⟩, 4, 1⟩], 4, none, 0, 0,
              (0, 0)⟩ : PendulumSystem ℝ) 9)
          (⟨[⟨⟨1, 1, 1, 2⟩, ⟨1, 1, 1, 3⟩, 4, 1⟩], 4, none, 0, 0,
            (0, 0)⟩ : PendulumSystem ℝ).g)
      = velocities
          (⟨[⟨⟨1, 1, 1, 2⟩, ⟨1, 1, 1, 3⟩, 4, 1⟩], 4, none, 0, 0,
            (0, 0)⟩ : PendulumSystem ℝ) :=
  ⟨by norm_num, by norm_num,
   C6_gravity_round_trip
     (⟨[⟨⟨1, 1, 1, 2⟩, ⟨1, 1, 1, 3⟩, 4, 1⟩], 4, none, 0, 0,
       (0, 0)⟩ : PendulumSystem ℝ) 9 (by norm_num) (by norm_num)⟩

/-- The ensemble-level operations whose sequences claim C7 quantifies
over: gravity updates and resizes (the latter carrying the draw oracle
for any freshly created pendulums). -/
inductive SystemOp (K : Type) where
  | gravity (g : K)
  | count (n : ℤ) (draws : ℕ → PendulumDraw K)

/-- Dispatch of one ensemble operation. -/
def applyOp (moon : Bool) (sq : K → K) (s : PendulumSystem K) :
    SystemOp K → PendulumSystem K
  | .gravity g => update_gravity sq s g
  | .count n draws => update_number_of_pendulums moon draws s n

/-- A sequence of ensemble operations applied in order. -/
def applyOps (moon : Bool) (sq : K → K) (s : PendulumSystem K)
    (ops : List (SystemOp K)) : PendulumSystem K :=
  ops.foldl (applyOp moon sq) s

lemma gInv_update_gravity (sq : K → K) (s : PendulumSystem K) (g : K) :
    ∀ dp ∈ (update_gravity sq s g).double_pendulums,
      dp.g = (update_gravity sq s g).g := by
  intro dp hdp
  simp only [update_gravity, List.mem_map] at hdp
  obtain ⟨dp0, _, rfl⟩ := hdp
  rfl

lemma gInv_update_number (moon : Bool) (draws : ℕ → PendulumDraw K)
    (s : PendulumSystem K) (n : ℤ)
    (h : ∀ dp ∈ s.double_pendulums, dp.g = s.g) :
    ∀ dp ∈ (update_number_of_pendulums moon draws s n).double_pendulums,
      dp.g = (update_number_of_pendulums moon draws s n).g := by
  intro dp hdp
  unfold update_number_of_pendulums at hdp ⊢
  by_cases h1 : n < (s.double_pendulums.length : ℤ)
  · rw [if_pos h1] at hdp ⊢
    have hmem : dp ∈ s.double_pendulums := by
      have hdp' : dp ∈ pySliceTo s.double_pendulums n := hdp
      unfold pySliceTo at hdp'
      by_cases h2 : (0 : ℤ) ≤ n
      · rw [if_pos h2] at hdp'
        exact List.mem_of_mem_take hdp'
      · rw [if_neg h2] at hdp'
        exact List.mem_of_mem_take hdp'
    exact h dp hmem
  · rw [if_neg h1] at hdp ⊢
    by_cases h2 : (s.double_pendulums.length : ℤ) < n
    · rw [if_pos h2] at hdp ⊢
      have hdp' : dp ∈ s.double_pendulums
          ∨ dp ∈ (List.range (n - (s.double_pendulums.length : ℤ)).toNat).map
              (fun i => mkDoublePendulum moon s.g s.temperature (draws i)) :=
        List.mem_append.mp hdp
      rcases hdp' with hmem | hmem
      · exact h dp hmem
      · simp only [List.mem_map] at hmem
        obtain ⟨i, _, rfl⟩ := hmem
        rfl
    · rw [if_neg h2] at hdp ⊢
      exact h dp hdp

lemma gInv_applyOps (moon : Bool) (sq : K → K) (ops : List (SystemOp K))
    (s : PendulumSystem K)
    (h : ∀ dp ∈ s.double_pendulums, dp.g = s.g) :
    ∀ dp ∈ (applyOps moon sq s ops).double_pendulums,
      dp.g = (applyOps moon sq s ops).g := by
  induction ops generalizing s with
  | nil => exact h
  | cons op rest ih =>
    have hstep : ∀ dp ∈ (applyOp moon sq s op).double_pendulums,
        dp.g = (applyOp moon sq s op).g := by
      cases op with
      | gravity g => exact gInv_update_gravity sq s g
      | count n draws => exact gInv_update_number moon draws s n h
    exact ih (applyOp moon sq s op) hstep

/-- C7: starting from construction, after any sequence of gravity updates
and resizes every owned simulator's `g` equals the ensemble's current `g`
(gravity updates rewrite every member, growth copies the ensemble's
current `g`). -/
theorem C7_gravity_invariant (moon : Bool) (sq : K → K) (n : ℕ) (g : K)
    (temperature : Option K) (mass_range length_range : K)
    (angle_range : K × K) (draws : ℕ → PendulumDraw K)
    (ops : List (SystemOp K)) :
    ∀ dp ∈ (applyOps moon sq
        (mkPendulumSystem moon n g temperature mass_range length_range
          angle_range draws) ops).double_pendulums,
      dp.g = (applyOps moon sq
        (mkPendulumSystem moon n g temperature mass_range length_range
          angle_range draws) ops).g := by
  apply gInv_applyOps
  intro dp hdp
  simp only [mkPendulumSystem, List.mem_map] at hdp
  obtain ⟨i, _, rfl⟩ := hdp
  rfl

/-- C7 witness: a one-member rational ensemble built with gravity 5 after
a single gravity update to 7: the member with `g = 7` is in the ensemble
and matches the ensemble's `g`. -/
theorem C7_gravity_invariant_witness :
    ((⟨⟨1, 1, 1, 0⟩, ⟨1, 1, 1, 0⟩, 7, 1⟩ : DoublePendulum ℚ)
        ∈ (applyOps false (fun x => x)
            (mkPendulumSystem false 1 5 none 0 0 (0, 0)
              (fun _ => ⟨1, 1, 1, 1, 1, 1⟩))
            [SystemOp.gravity 7]).double_pendulums)
    ∧ (⟨⟨1, 1, 1, 0⟩, ⟨1, 1, 1, 0⟩, 7, 1⟩ : DoublePendulum ℚ).g
        = (applyOps false (fun x => x)
            (mkPendulumSystem false 1 5 none 0 0 (0, 0)
              (fun _ => ⟨1, 1, 1, 1, 1, 1⟩))
            [SystemOp.gravity 7]).g := by
  have hmem : (⟨⟨1, 1, 1, 0⟩, ⟨1, 1, 1, 0⟩, 7, 1⟩ : DoublePendulum ℚ)
      ∈ (applyOps false (fun x => x)
          (mkPendulumSystem false 1 5 none 0 0 (0, 0)
            (fun _ => ⟨1, 1, 1, 1, 1, 1⟩))
          [SystemOp.gravity 7]).double_pendulums := by
    simp [applyOps, applyOp, update_gravity, mkPendulumSystem,
      mkDoublePendulum, List.foldl]
  exact ⟨hmem,
    C7_gravity_invariant false (fun x => x) 1 5 none 0 0 (0, 0)
      (fun _ => ⟨1, 1, 1, 1, 1, 1⟩) [SystemOp.gravity 7] _ hmem⟩

/-- Embedding of enum `EventType` (src/EventManager.py, lines 5-18). -/
inductive EventType where
  | LOCATION_CHANGED
  | WEATHER_UPDATED
  | MOON_MODE_CHANGED
  | PENDULUM_COUNT_CHANGED
  | MASS_RANGE_CHANGED
  | LENGTH_RANGE_CHANGED
  | MUSIC_SETTINGS_CHANGED
  | PYGAME_EVENT
  | WEATHER_FETCH_ERROR
deriving DecidableEq

/-- The registry built by `EventManager.__new__` (src/EventManager.py,
lines 38-44): every event type starts with an empty subscriber set.
Python's `set` of callbacks is a `Finset` over an arbitrary callback type
`κ` with decidable identity. -/
def initial_subscribers (κ : Type) : EventType → Finset κ := fun _ => ∅

/-- Embedding of `EventManager.subscribe` (src/EventManager.py, lines
46-52): `self._subscribers[event_type].add(callback)`. -/
def subscribe {κ : Type} [DecidableEq κ]
    (subscribers : EventType → Finset κ) (event_type : EventType)
    (callback : κ) : EventType → Finset κ :=
  fun et =>
    if et = event_type then insert callback (subscribers et)
    else subscribers et

/-- Embedding of `EventManager.unsubscribe` (src/EventManager.py, lines
54-61): the callback is removed only when present, so a missing callback
is a no-op rather than a `KeyError`. -/
def unsubscribe {κ : Type} [DecidableEq κ]
    (subscribers : EventType → Finset κ) (event_type : EventType)
    (callback : κ) : EventType → Finset κ :=
  fun et =>
    if et = event_type then
      if callback ∈ subscribers et then (subscribers et).erase callback
      else subscribers et
    else subscribers et

/-- Embedding of `EventManager.publish` (src/EventManager.py, lines
63-68): the multiset of callbacks invoked for an event of the given type
(each subscriber is called once per iteration of the set). -/
def publish {κ : Type} (subscribers : EventType → Finset κ)
    (event_type : EventType) : Multiset κ :=
  (subscribers event_type).val

/-- C10: subscribing an already-subscribed callback leaves the registry
unchanged and a subsequent publish still invokes it exactly once, and
unsubscribing a callback that is not subscribed is a no-op that raises no
error. -/
theorem C10_registry_set_semantics {κ : Type} [DecidableEq κ]
    (subscribers : EventType → Finset κ) (event_type : EventType)
    (callback : κ) :
    (callback ∈ subscribers event_type →
      subscribe subscribers event_type callback = subscribers
      ∧ Multiset.count callback
          (publish (subscribe subscribers event_type callback) event_type)
        = 1)
    ∧ (callback ∉ subscribers event_type →
      unsubscribe subscribers event_type callback = subscribers) := by
  constructor
  · intro hmem
    have hsub : subscribe subscribers event_type callback = subscribers := by
      funext et
      unfold subscribe
      by_cases het : et = event_type
      · subst het
        rw [if_pos rfl, Finset.insert_eq_self.mpr hmem]
      · rw [if_neg het]
    refine ⟨hsub, ?_⟩
    rw [hsub]
    unfold publish
    exact Multiset.count_eq_one_of_mem (subscribers event_type).nodup hmem
  · intro hmem
    funext et
    unfold unsubscribe
    by_cases het : et = event_type
    · subst het
      rw [if_pos rfl, if_neg hmem]
    · rw [if_neg het]

/-- C10 witness: over ℕ-labelled callbacks, re-subscribing the member 0
of the singleton registry set `{0}` and unsubscribing the absent 1. -/
theorem C10_registry_set_semantics_witness :
    ((subscribe (fun _ => ({0} : Finset ℕ)) EventType.LOCATION_CHANGED 0
        = fun _ => ({0} : Finset ℕ))
      ∧ Multiset.count 0
          (publish (subscribe (fun _ => ({0} : Finset ℕ))
            EventType.LOCATION_CHANGED 0) EventType.LOCATION_CHANGED) = 1)
    ∧ unsubscribe (fun _ => ({0} : Finset ℕ)) EventType.LOCATION_CHANGED 1
        = fun _ => ({0} : Finset ℕ) :=
  ⟨(C10_registry_set_semantics (fun _ => ({0} : Finset ℕ))
      EventType.LOCATION_CHANGED 0).1 (by decide),
   (C10_registry_set_semantics (fun _ => ({0} : Finset ℕ))
      EventType.LOCATION_CHANGED 1).2 (by decide)⟩

/-- The fields of class `Config` (src/Config.py) that the weather flow
reads and writes: the shared location, temperature and weather
condition.  The remaining `Config` fields are not touched by this code
path. -/
structure ConfigState where
  location : String
  temperature : ℚ
  weather_condition : String
deriving DecidableEq

/-- The mutable state of class `WeatherAPI` (src/WeatherAPI.py, lines
8-20): its own location and last-seen weather fields (both `None`
initially). -/
structure ApiState where
  location : String
  temperature : Option ℚ
  weather_condition : Option String
deriving DecidableEq

/-- Oracle for one HTTP exchange of `fetch_current_weather_data`
(src/WeatherAPI.py, lines 54-95): `requestError` is a
`requests.exceptions.RequestException` (connection failure or
`raise_for_status`), `incompleteData` is a parsed body whose `current`
entry misses `temp_c` or `condition.text` (the raised `ValueError`), and
`ok` carries a complete body.  A body lacking the `current` key raises an
uncaught `KeyError` in the source and is outside this model. -/
inductive ApiResponse where
  | requestError
  | incompleteData
  | ok (temp : ℚ) (cond : String)
deriving DecidableEq

/-- The weather-fetch attempts that end in failure: both exception paths
land in the `except` clause and return the falsy `{}`. -/
def fetch_failed : ApiResponse → Prop
  | .requestError => True
  | .incompleteData => True
  | .ok _ _ => False

/-- Embedding of `WeatherAPI.fetch_current_weather_data`
(src/WeatherAPI.py, lines 54-95).  Returns the updated api and config
states, the event types published, and the truthiness of the returned
dict (`data` on success, `{}` on failure).  On failure the api fields are
re-seeded from the config and the config is untouched; on success both
the api and the config weather fields are overwritten and
`WEATHER_UPDATED` is published. -/
def fetch_current_weather_data (resp : ApiResponse) (api : ApiState)
    (cfg : ConfigState) : ApiState × ConfigState × List EventType × Bool :=
  match resp with
  | .requestError =>
    ({ api with
        temperature := some cfg.temperature
        weather_condition := some cfg.weather_condition }, cfg, [], false)
  | .incompleteData =>
    ({ api with
        temperature := some cfg.temperature
        weather_condition := some cfg.weather_condition }, cfg, [], false)
  | .ok t c =>
    ({ api with temperature := some t, weather_condition := some c },
     { cfg with temperature := t, weather_condition := c },
     [.WEATHER_UPDATED], true)

/-- Embedding of `WeatherAPI._on_location_changed` (src/WeatherAPI.py,
lines 29-52): the api's location is overwritten with the event's
location, the fetch runs, and on a falsy result a `WEATHER_FETCH_ERROR`
is published and both the api location and `Config.location` are
reverted to the api's previous location. -/
def on_location_changed (resp : ApiResponse) (new_location : String)
    (api : ApiState) (cfg : ConfigState) :
    ApiState × ConfigState × List EventType :=
  let old_location := api.location
  let api1 : ApiState := { api with location := new_location }
  let r := fetch_current_weather_data resp api1 cfg
  if r.2.2.2 then (r.1, r.2.1, r.2.2.1)
  else
    ({ r.1 with location := old_location },
     { r.2.1 with location := old_location },
     r.2.2.1 ++ [.WEATHER_FETCH_ERROR])

/-- The whole location-change interaction: `Sidebar.process_event`
(src/Sidebar.py, lines 125-130) first writes the new location into
`Config.location` and then publishes `LOCATION_CHANGED`, whose only
subscriber in the repository is `WeatherAPI._on_location_changed`. -/
def location_change_flow (resp : ApiResponse) (new_location : String)
    (api : ApiState) (cfg : ConfigState) :
    ApiState × ConfigState × List EventType :=
  let cfg1 : ConfigState := { cfg with location := new_location }
  on_location_changed resp new_location api cfg1

/-- C8: when the api's location agrees with the shared config location
(as it does in every reachable state of the flow), a location change
whose weather fetch fails publishes `WEATHER_FETCH_ERROR` and leaves the
whole shared config state — location, temperature and weather condition —
exactly as it was before the change was attempted. -/
theorem C8_failed_fetch_reverts_config (resp : ApiResponse)
    (new_location : String) (api : ApiState) (cfg : ConfigState)
    (hsync : api.location = cfg.location)
    (hfail : fetch_failed resp) :
    (location_change_flow resp new_location api cfg).2.2
      = [.WEATHER_FETCH_ERROR]
    ∧ (location_change_flow resp new_location api cfg).2.1 = cfg := by
  cases resp with
  | requestError =>
    constructor
    · rfl
    · simp only [location_change_flow, on_location_changed,
        fetch_current_weather_data, Bool.false_eq_true, if_false]
      rw [hsync]
  | incompleteData =>
    constructor
    · rfl
    · simp only [location_change_flow, on_location_changed,
        fetch_current_weather_data, Bool.false_eq_true, if_false]
      rw [hsync]
  | ok t c => exact absurd hfail (by simp [fetch_failed])

/-- C8 supporting invariant: a location-change interaction keeps the
api's location and the config's location in agreement, whether the fetch
succeeds or fails — so the synchronisation hypothesis of
`C8_failed_fetch_reverts_config` holds in every reachable state. -/
lemma location_sync_preserved (resp : ApiResponse) (new_location : String)
    (api : ApiState) (cfg : ConfigState)
    (hsync : api.location = cfg.location) :
    (location_change_flow resp new_location api cfg).1.location
      = (location_change_flow resp new_location api cfg).2.1.location := by
  cases resp <;>
    simp [location_change_flow, on_location_changed,
      fetch_current_weather_data]

/-- C8 witness: a failing fetch for a move from Barcelona to Paris
reverts the config and publishes the error event. -/
theorem C8_failed_fetch_reverts_config_witness :
    (ApiState.location
        (⟨"Barcelona", none, none⟩ : ApiState)
      = ConfigState.location (⟨"Barcelona", 15, "Clear"⟩ : ConfigState))
    ∧ fetch_failed ApiResponse.requestError
    ∧ (location_change_flow ApiResponse.requestError "Paris"
        ⟨"Barcelona", none, none⟩ ⟨"Barcelona", 15, "Clear"⟩).2.2
      = [.WEATHER_FETCH_ERROR]
    ∧ (location_change_flow ApiResponse.requestError "Paris"
        ⟨"Barcelona", none, none⟩ ⟨"Barcelona", 15, "Clear"⟩).2.1
      = ⟨"Barcelona", 15, "Clear"⟩ :=
  ⟨rfl, trivial,
   (C8_failed_fetch_reverts_config ApiResponse.requestError "Paris"
     ⟨"Barcelona", none, none⟩ ⟨"Barcelona", 15, "Clear"⟩ rfl trivial).1,
   (C8_failed_fetch_reverts_config ApiResponse.requestError "Paris"
     ⟨"Barcelona", none, none⟩ ⟨"Barcelona", 15, "Clear"⟩ rfl trivial).2⟩

end WeatheredChaos
